import Mathlib

/-!
Verification of the score/suggestion derivation core of the
`AI-Code-Reviewer` backend (`backend/app.py`).

The Python source is shallowly embedded: pure helpers become Lean
functions, real numbers (Python floats) are modelled as rationals,
optional values (`None`) as `Option`, and each subprocess-backed
adapter becomes a function of an explicit outcome value describing what
the spawned process did (binary missing, other exception, or completed
with a return code, captured output and parsed JSON payload).
String handling (strip/lower/upper, word characters, whitespace) is
modelled at ASCII precision, which covers the analysed texts.
-/

namespace AIReviewer

/-- Python `str.strip()` whitespace set (ASCII). -/
def isPySpace (c : Char) : Bool :=
  c = ' ' || c = '\t' || c = '\n' || c = '\r' || c = '\x0b' || c = '\x0c'

/-- Python regex `\w` word character (ASCII precision). -/
def isPyWordChar (c : Char) : Bool :=
  ('a' ≤ c && c ≤ 'z') || ('A' ≤ c && c ≤ 'Z') || ('0' ≤ c && c ≤ '9') || c = '_'

/-- Python `str.strip()` on the character list. -/
def pyStripList (cs : List Char) : List Char :=
  ((cs.dropWhile isPySpace).reverse.dropWhile isPySpace).reverse

/-- Python `str.strip()`. -/
def pyStrip (s : String) : String := ⟨pyStripList s.data⟩

/-- Python `str.lower()` (ASCII precision). -/
def pyLower (s : String) : String := ⟨s.data.map Char.toLower⟩

/-- Python `str.upper()` (ASCII precision). -/
def pyUpper (s : String) : String := ⟨s.data.map Char.toUpper⟩

/-- Python `s.endswith(suf)`. -/
def pyEndsWith (s suf : String) : Bool := suf.data.isSuffixOf s.data

/-- Python `s.startswith(p)`. -/
def pyStartsWith (s p : String) : Bool := p.data.isPrefixOf s.data

/-- Python `x or default` for an optional string field: `None` and the
empty string are falsy. -/
def pyOr (o : Option String) (d : String) : String :=
  match o with
  | none => d
  | some s => if s = "" then d else s

/-- `clamp(v, lo, hi)` from `app.py`: `max(lo, min(hi, v))`. -/
def clamp {α : Type} [LinearOrder α] (v lo hi : α) : α := max lo (min hi v)

/-- Round half to even (Python `round` / float formatting tie rule),
on the rational model of floats. -/
def rhe (q : ℚ) : ℤ :=
  let f := ⌊q⌋
  if q - f < 1/2 then f
  else if q - f > 1/2 then f + 1
  else if f % 2 = 0 then f else f + 1

/-! ## Data model -/

/-- Normalized issue record `{type, detail, line}`. -/
structure Issue where
  type : String
  detail : String
  line : Option ℕ
deriving DecidableEq, Repr

/-- Metrics dict `{"mi": …, "avg_cc": …, "max_cc": …}`; `none` is
Python `None` ("metric unavailable"). -/
structure Metrics where
  mi : Option ℚ
  avg_cc : Option ℚ
  max_cc : Option ℚ
deriving DecidableEq, Repr

/-- Raw Bandit finding (the fields `app.py` reads). `issue_severity`
is `Option` because `dict.get` yields `None` when absent. -/
structure SecFinding where
  test_id : Option String
  issue_text : Option String
  issue_severity : Option String
  line_number : Option ℕ
deriving DecidableEq, Repr

/-- The four scores returned by `score_from`. -/
structure ScoreSet where
  readability : ℤ
  complexity : ℤ
  security : ℤ
  testing : ℤ
deriving DecidableEq, Repr

/-- The `/review` JSON response body. -/
structure ReviewResponse where
  summary : String
  issues : List Issue
  scores : ScoreSet
  output : String
  suggestions : List String
deriving DecidableEq, Repr

/-! ## Test-signal regex

`app.py` decides `has_tests` with
`re.search(r"\bimport\s+(unittest|pytest)\b", code)` and
`re.search(r"\bdef\s+test_", code)`.  The two patterns are embedded as
direct scanners over the character list: at every position whose
preceding character is not a word character (`\b` before a word char),
try to match the literal keyword, then one or more whitespace
characters, then the tail, with a trailing word boundary where the
pattern has one. -/

/-- Match `import\s+(unittest|pytest)\b` at the head of `cs`. -/
def matchImportHere (cs : List Char) : Bool :=
  "import".data.isPrefixOf cs &&
    (let r := cs.drop 6
     let sp := r.takeWhile isPySpace
     let r2 := r.dropWhile isPySpace
     !sp.isEmpty &&
       (("unittest".data.isPrefixOf r2 &&
           (match r2.drop 8 with | [] => true | c :: _ => !isPyWordChar c)) ||
        ("pytest".data.isPrefixOf r2 &&
           (match r2.drop 6 with | [] => true | c :: _ => !isPyWordChar c))))

/-- Match `def\s+test_` at the head of `cs`. -/
def matchDefTestHere (cs : List Char) : Bool :=
  "def".data.isPrefixOf cs &&
    (let r := cs.drop 3
     !(r.takeWhile isPySpace).isEmpty &&
       "test_".data.isPrefixOf (r.dropWhile isPySpace))

/-- Scan for either pattern; `prevWord` records whether the character
before the current position is a word character (so `\b` holds exactly
when it is `false`). -/
def scanTestSignal : List Char → Bool → Bool
  | [], _ => false
  | c :: rest, prevWord =>
    (!prevWord && (matchImportHere (c :: rest) || matchDefTestHere (c :: rest)))
      || scanTestSignal rest (isPyWordChar c)

/-- `has_tests` from `score_from` (and the identical test in
`build_suggestions`): either regex finds a match in the source. -/
def hasTestSignal (code : List Char) : Bool :=
  scanTestSignal code false

/-! ## `score_from` -/

/-- Per-finding security penalty from `score_from`:
`sev = (f.get("issue_severity") or "").upper()`;
`20 if sev == "HIGH" else 10 if sev == "MEDIUM" else 5`. -/
def severityPenalty (f : SecFinding) : ℤ :=
  let sev := pyUpper (pyOr f.issue_severity "")
  if sev = "HIGH" then 20 else if sev = "MEDIUM" then 10 else 5

/-- `score_from(metrics, issues, sec_findings, code)` from `app.py`.
`int(round(x))` is the identity on the integer-valued scores
(complexity, security, testing), so only readability goes through
rounding of a non-integer value. -/
def score_from (metrics : Metrics) (issues : List Issue)
    (sec_findings : List SecFinding) (code : List Char) : ScoreSet :=
  if issues.any (fun i => i.type == "SYNTAX_ERROR") then
    { readability := 0, complexity := 0
      security := if sec_findings.isEmpty then 0 else 30
      testing := 0 }
  else
    let readability : ℚ := clamp (metrics.mi.getD 0) 0 100
    let complexity : ℤ :=
      match metrics.avg_cc with
      | some avg_cc =>
        if avg_cc ≤ 1 then 95
        else if avg_cc ≤ 3 then 85
        else if avg_cc ≤ 6 then 70
        else if avg_cc ≤ 10 then 55
        else 35
      | none => 0
    let penalty : ℤ := (sec_findings.map severityPenalty).sum
    let security : ℤ := clamp (95 - penalty) 0 95
    let testing : ℤ := if hasTestSignal code then 80 else 20
    { readability := rhe readability, complexity := complexity
      security := security, testing := testing }

/-- Substring containment: Python's `sub in s`, on character lists. -/
def hasSub : List Char → List Char → Bool
  | [], sub => sub.isEmpty
  | c :: rest, sub => sub.isPrefixOf (c :: rest) || hasSub rest sub

/-- Penalty per security finding as the specification words it: `20`
for HIGH, `10` for MEDIUM, `5` for any other non-empty severity label
(and nothing for an empty label, about which the specification is
silent). -/
def specSeverityPenalty (f : SecFinding) : ℤ :=
  let sev := pyUpper (pyOr f.issue_severity "")
  if sev = "HIGH" then 20 else if sev = "MEDIUM" then 10
  else if sev = "" then 0 else 5

/-! ## Helper lemmas -/

theorem any_syntax_eq_false {issues : List Issue}
    (h : ∀ i ∈ issues, i.type ≠ "SYNTAX_ERROR") :
    issues.any (fun i => i.type == "SYNTAX_ERROR") = false := by
  rw [List.any_eq_false]
  intro i hi
  simpa using h i hi

theorem pyUpper_eq_empty_iff (s : String) : pyUpper s = "" ↔ s = "" := by
  constructor
  · intro h
    have h2 : s.data.map Char.toUpper = ([] : List Char) := congrArg String.data h
    exact String.ext (List.map_eq_nil_iff.mp h2)
  · intro h
    rw [h]
    rfl

theorem specSeverityPenalty_eq {f : SecFinding}
    (h : pyOr f.issue_severity "" ≠ "") :
    specSeverityPenalty f = severityPenalty f := by
  have hu : pyUpper (pyOr f.issue_severity "") ≠ "" := fun hc =>
    h ((pyUpper_eq_empty_iff _).mp hc)
  simp only [specSeverityPenalty, severityPenalty, if_neg hu]

theorem sum_specSeverityPenalty_eq {sec : List SecFinding}
    (hall : ∀ f ∈ sec, pyOr f.issue_severity "" ≠ "") :
    (sec.map specSeverityPenalty).sum = (sec.map severityPenalty).sum := by
  induction sec with
  | nil => rfl
  | cons f rest ih =>
    simp only [List.map_cons, List.sum_cons]
    rw [specSeverityPenalty_eq (hall f (List.mem_cons_self f rest)),
        ih (fun g hg => hall g (List.mem_cons_of_mem f hg))]

/-! ## Claims about `score_from` -/

/-- C1: when any issue has type `SYNTAX_ERROR`, `score_from` returns
readability = 0, complexity = 0, testing = 0, and security = 30 when
the security-findings list is non-empty (0 otherwise), regardless of
the metrics or the source text. -/
theorem C1_syntax_error_collapses_scores
    (metrics : Metrics) (issues : List Issue) (sec : List SecFinding)
    (code : List Char) (h : ∃ i ∈ issues, i.type = "SYNTAX_ERROR") :
    score_from metrics issues sec code =
      { readability := 0, complexity := 0
        security := if sec = [] then 0 else 30, testing := 0 } := by
  obtain ⟨i, hi, ht⟩ := h
  have hb : issues.any (fun j => j.type == "SYNTAX_ERROR") = true :=
    List.any_eq_true.mpr ⟨i, hi, by simp [ht]⟩
  simp only [score_from, hb, if_true]
  cases sec <;> simp

/-- Witness for C1 at a concrete request: one syntax error plus one
HIGH security finding, ignoring metrics and a test-bearing source. -/
theorem C1_witness :
    score_from ⟨some 50, some 2, some 2⟩
      [⟨"SYNTAX_ERROR", "unexpected EOF", some 1⟩]
      [⟨some "B602", some "subprocess call", some "HIGH", some 3⟩]
      "import pytest".data = ⟨0, 0, 30, 0⟩ := by
  have h := C1_syntax_error_collapses_scores ⟨some 50, some 2, some 2⟩
    [⟨"SYNTAX_ERROR", "unexpected EOF", some 1⟩]
    [⟨some "B602", some "subprocess call", some "HIGH", some 3⟩]
    "import pytest".data ⟨⟨"SYNTAX_ERROR", "unexpected EOF", some 1⟩, by simp, rfl⟩
  simpa using h

/-- C2: absent a syntax error, the security score is
`clamp (95 − Σ penalty) 0 95` with the specification's per-finding
penalties (20 HIGH, 10 MEDIUM, 5 any other non-empty label); it is 95
with no findings, and always within `[0, 95]`. -/
theorem C2_security_score
    (metrics : Metrics) (issues : List Issue) (sec : List SecFinding)
    (code : List Char) (h : ∀ i ∈ issues, i.type ≠ "SYNTAX_ERROR") :
    ((∀ f ∈ sec, pyOr f.issue_severity "" ≠ "") →
      (score_from metrics issues sec code).security
        = clamp (95 - (sec.map specSeverityPenalty).sum) 0 95)
    ∧ (sec = [] → (score_from metrics issues sec code).security = 95)
    ∧ 0 ≤ (score_from metrics issues sec code).security
    ∧ (score_from metrics issues sec code).security ≤ 95 := by
  have hb := any_syntax_eq_false h
  have hsec : (score_from metrics issues sec code).security
      = clamp (95 - (sec.map severityPenalty).sum) 0 95 := by
    simp [score_from, hb]
  refine ⟨?_, ?_, ?_, ?_⟩
  · intro hall
    rw [hsec, sum_specSeverityPenalty_eq hall]
  · intro hnil
    subst hnil
    rw [hsec]
    rfl
  · rw [hsec]
    exact le_max_left 0 _
  · rw [hsec]
    exact max_le (by norm_num) (min_le_left 95 _)

/-- Witness for C2: one HIGH plus one MEDIUM plus one LOW finding gives
`95 − 35 = 60`; the empty list gives `95`. -/
theorem C2_witness :
    (score_from ⟨none, none, none⟩ []
        [⟨some "B602", some "a", some "HIGH", some 1⟩,
         ⟨some "B404", some "b", some "MEDIUM", some 2⟩,
         ⟨some "B110", some "c", some "LOW", some 3⟩] []).security = 60 ∧
    (score_from ⟨none, none, none⟩ [] [] []).security = 95 := by
  constructor
  · have h := (C2_security_score ⟨none, none, none⟩ []
      [⟨some "B602", some "a", some "HIGH", some 1⟩,
       ⟨some "B404", some "b", some "MEDIUM", some 2⟩,
       ⟨some "B110", some "c", some "LOW", some 3⟩] [] (by simp)).1 (by decide)
    rw [h]
    decide
  · exact (C2_security_score ⟨none, none, none⟩ [] [] [] (by simp)).2.1 rfl

/-- C3: absent a syntax error, the complexity score is the five-bucket
step function of `averageComplexity`, inclusive at the upper edges, and
0 when the metric is unavailable. -/
theorem C3_complexity_buckets
    (metrics : Metrics) (issues : List Issue) (sec : List SecFinding)
    (code : List Char) (h : ∀ i ∈ issues, i.type ≠ "SYNTAX_ERROR") :
    (∀ a : ℚ, metrics.avg_cc = some a →
      (score_from metrics issues sec code).complexity =
        if a ≤ 1 then 95 else if a ≤ 3 then 85 else if a ≤ 6 then 70
        else if a ≤ 10 then 55 else 35)
    ∧ (metrics.avg_cc = none →
        (score_from metrics issues sec code).complexity = 0) := by
  have hb := any_syntax_eq_false h
  constructor
  · intro a ha
    simp [score_from, hb, ha]
  · intro ha
    simp [score_from, hb, ha]

/-- Witness for C3 at the bucket boundary: average complexity exactly 3
scores 85, while 3.01 falls into the next bucket and scores 70. -/
theorem C3_witness :
    (score_from ⟨none, some 3, none⟩ [] [] []).complexity = 85 ∧
    (score_from ⟨none, some (301/100), none⟩ [] [] []).complexity = 70 := by
  constructor
  · have h := (C3_complexity_buckets ⟨none, some 3, none⟩ [] [] [] (by simp)).1 3 rfl
    rw [h]
    norm_num
  · have h := (C3_complexity_buckets ⟨none, some (301/100), none⟩ [] [] []
      (by simp)).1 (301/100) rfl
    rw [h]
    norm_num

/-- C4 is false as stated: two sources containing the substring
`"import pytest"` whose testing score is not 80 — one where the
occurrence is not at a word boundary (the regex
`\bimport\s+(unittest|pytest)\b` does not match inside
`"reimport pytests"`), and one where a SYNTAX_ERROR issue collapses the
testing score to 0. -/
theorem C4_counterexample :
    (hasSub "x = 1 # reimport pytests".data "import pytest".data = true ∧
      (score_from ⟨some 80, some 1, some 1⟩ [] []
        "x = 1 # reimport pytests".data).testing = 20) ∧
    (hasSub "import pytest(".data "import pytest".data = true ∧
      (score_from ⟨some 80, some 1, some 1⟩
        [⟨"SYNTAX_ERROR", "invalid syntax", some 1⟩] []
        "import pytest(".data).testing = 0) := by
  decide

/-- C4 as amended: when no issue has type SYNTAX_ERROR and the source
matches the code's test-signal pattern (`\bimport\s+(unittest|pytest)\b`
or `\bdef\s+test_` — in particular whenever `import pytest` appears as
whole words), the testing score is 80 regardless of metrics and
security findings. -/
theorem C4_testing_score
    (metrics : Metrics) (issues : List Issue) (sec : List SecFinding)
    (code : List Char) (h : ∀ i ∈ issues, i.type ≠ "SYNTAX_ERROR")
    (ht : hasTestSignal code = true) :
    (score_from metrics issues sec code).testing = 80 := by
  simp [score_from, any_syntax_eq_false h, ht]

/-- Witness for C4 (amended) at the source `"import pytest"`. -/
theorem C4_witness :
    (score_from ⟨some 10, some 20, some 20⟩ []
      [⟨some "B602", some "a", some "HIGH", some 1⟩]
      "import pytest".data).testing = 80 :=
  C4_testing_score ⟨some 10, some 20, some 20⟩ []
    [⟨some "B602", some "a", some "HIGH", some 1⟩]
    "import pytest".data (by simp) (by decide)

/-! ## Process-backed analyzer adapters

Each adapter is a function of the outcome of its `subprocess.run`
call.  The outcome type distinguishes exactly the cases the Python code
branches on: the binary was absent (`FileNotFoundError`), another
exception was raised, or the process completed with a return code, raw
stdout/stderr text, and a payload standing for the `json.loads` parse
of stdout (the JSON decoding itself is third-party library code, so it
is carried as already-structured data). -/

inductive ProcResult (α : Type) where
  | fileNotFound
  | exn (msg : String)
  | done (returncode : ℤ) (stdoutRaw : String) (stderr : String) (payload : α)
deriving Repr

/-- One ruff JSON finding, restricted to the fields `run_ruff` reads;
`none` models an absent (or null) key, matching `dict.get`. -/
structure RuffFinding where
  code : Option String
  message : Option String
  row : Option ℕ
deriving DecidableEq, Repr

/-- `run_ruff(path)` from `app.py`, as a function of the subprocess
outcome. Lines 116–138: `FileNotFoundError` → one `RUFF_MISSING`
issue; any other exception → one `RUFF_ERROR` issue; return code
outside {0, 1} → one `RUFF_ERROR` issue carrying
`(out.stderr or "ruff failed").strip()`; otherwise one issue per
finding (empty stdout → no findings). -/
def run_ruff (out : ProcResult (List RuffFinding)) : List Issue :=
  match out with
  | .fileNotFound => [⟨"RUFF_MISSING", "ruff not installed in venv", none⟩]
  | .exn e => [⟨"RUFF_ERROR", e, none⟩]
  | .done rc stdoutRaw stderr payload =>
    if rc ≠ 0 ∧ rc ≠ 1 then
      [⟨"RUFF_ERROR", pyStrip (if stderr = "" then "ruff failed" else stderr), none⟩]
    else
      (if pyStrip stdoutRaw = "" then [] else payload).map
        (fun f => ⟨f.code.getD "RUFF", f.message.getD "Lint", f.row⟩)

/-- The Bandit JSON document, restricted to the field `run_bandit`
reads: `data.get("results", []) or []`. -/
structure BanditData where
  results : Option (List SecFinding)
deriving DecidableEq, Repr

/-- `run_bandit(path)` from `app.py`, as a function of the subprocess
outcome; the payload stands for `json.loads(out.stdout or "{}")`, with
`none` when that parse raised. Lines 185–202: every failure path —
missing binary, any exception, unexpected return code, or unparsable
stdout — yields the empty findings list. -/
def run_bandit (out : ProcResult (Option BanditData)) : List SecFinding :=
  match out with
  | .fileNotFound => []
  | .exn _ => []
  | .done rc _ _ payload =>
    if rc ≠ 0 ∧ rc ≠ 1 then []
    else
      match payload with
      | none => []
      | some d => d.results.getD []

/-- `run_radon_metrics(path)` from `app.py`, as a function of the two
subprocess outcomes (`radon mi` and `radon cc`).  The `mi` payload
stands for the numeric maintainability index extracted from
`mi_data.get(path)` (dict or non-empty list shape), `none` when the
shape or type checks fail; the `cc` payload stands for
`cc_data.get(path)` with each entry's `"complexity"` field (`none`
when absent or non-numeric).  Lines 140–183: an exception in either
`try` block (including a missing binary) leaves the corresponding
metrics at `None`; a non-zero return code or empty stdout leaves `mi`
at `None` but sets `avg_cc`/`max_cc` to `0.0`. -/
def run_radon_metrics (miOut : ProcResult (Option ℚ))
    (ccOut : ProcResult (Option (List (Option ℚ)))) : Metrics :=
  let mi : Option ℚ :=
    match miOut with
    | .done rc stdoutRaw _ payload =>
      if rc = 0 ∧ pyStrip stdoutRaw ≠ "" then payload else none
    | .fileNotFound => none
    | .exn _ => none
  let cc : Option ℚ × Option ℚ :=
    match ccOut with
    | .done rc stdoutRaw _ payload =>
      if rc = 0 ∧ pyStrip stdoutRaw ≠ "" then
        match payload.getD [] with
        | [] => (some 0, some 0)
        | e :: es =>
          match (e :: es).filterMap id with
          | [] => (some 0, some 0)
          | n :: nums =>
            (some ((n :: nums).sum / (n :: nums).length), some (nums.foldl max n))
      else (some 0, some 0)
    | .fileNotFound => (none, none)
    | .exn _ => (none, none)
  { mi := mi, avg_cc := cc.1, max_cc := cc.2 }

/-- C5 is false as stated: with the tool binary absent
(`FileNotFoundError`), only the lint adapter returns a `*_MISSING`
issue — the security adapter returns the empty findings list and the
metrics adapter reports every metric unavailable, neither of which is
an informational Issue. -/
theorem C5_counterexample :
    run_bandit (ProcResult.fileNotFound (α := Option BanditData)) = [] ∧
    run_radon_metrics (ProcResult.fileNotFound (α := Option ℚ))
      (ProcResult.fileNotFound (α := Option (List (Option ℚ)))) =
        ⟨none, none, none⟩ := ⟨rfl, rfl⟩

/-- C5 as amended: when the tool binary is absent, no adapter fails the
request — the lint adapter returns a single informational
`RUFF_MISSING` issue, the security adapter returns the empty findings
list, and the metrics adapter reports all three metrics unavailable. -/
theorem C5_missing_binary_behaviour :
    run_ruff (ProcResult.fileNotFound (α := List RuffFinding)) =
      [⟨"RUFF_MISSING", "ruff not installed in venv", none⟩] ∧
    run_bandit (ProcResult.fileNotFound (α := Option BanditData)) = [] ∧
    run_radon_metrics (ProcResult.fileNotFound (α := Option ℚ))
      (ProcResult.fileNotFound (α := Option (List (Option ℚ)))) =
        ⟨none, none, none⟩ := ⟨rfl, rfl, rfl⟩

/-! ## Execution sandbox -/

/-- Outcome of the sandbox `subprocess.run(["python", path], …)`,
as `run_code_output` distinguishes it: any exception (spawn failure or
`TimeoutExpired`), or completion with captured stdout and stderr. -/
inductive ExecOutcome where
  | exn (msg : String)
  | done (stdout stderr : String)
deriving DecidableEq, Repr

/-- Python's `"\n".join(pieces)`. -/
def joinNL : List String → String
  | [] => ""
  | [p] => p
  | p :: q :: rest => p ++ "\n" ++ joinNL (q :: rest)

/-- `run_code_output(code)` from `app.py` (lines 317–341), as a
function of the sandbox subprocess outcome. -/
def run_code_output (res : ExecOutcome) : String :=
  match res with
  | .exn e => "Runtime error: " ++ e
  | .done stdout stderr =>
    let pieces : List String :=
      (if pyStrip stdout = "" then [] else [pyStrip stdout]) ++
      (if pyStrip stderr = "" then [] else ["ERR: " ++ pyStrip stderr])
    if pieces.isEmpty then "(no output)" else joinNL pieces

/-- The sandbox output contract as the specification words it: the
trimmed stdout, followed (when stderr is non-empty) by the trimmed
stderr prefixed `"ERR: "`, joined by a newline; the literal
`"(no output)"` when both are empty; and on any exception a one-line
`"Runtime error: <message>"` string. -/
def run_code_output_spec (res : ExecOutcome) : String :=
  match res with
  | .exn e => "Runtime error: " ++ e
  | .done stdout stderr =>
    let so := pyStrip stdout
    let se := pyStrip stderr
    if so = "" ∧ se = "" then "(no output)"
    else if se = "" then so
    else if so = "" then "ERR: " ++ se
    else so ++ "\n" ++ ("ERR: " ++ se)

/-- C9: the sandbox result builder agrees with the specification's
combined-text contract on every subprocess outcome, and an exception is
always converted to a `"Runtime error: …"` string, never propagated. -/
theorem C9_sandbox_output (res : ExecOutcome) :
    run_code_output res = run_code_output_spec res := by
  cases res with
  | exn e => rfl
  | done stdout stderr =>
    by_cases ho : pyStrip stdout = "" <;> by_cases he : pyStrip stderr = "" <;>
      simp [run_code_output, run_code_output_spec, ho, he, joinNL]

/-! ## `/review` request dispatch (lines 32–46) -/

/-- What the `/review` handler decides to do before any tool runs. -/
inductive ReviewAction where
  | badRequest (error : String)
  | shortCircuit (resp : ReviewResponse)
  | analyze (code filename : String)
deriving DecidableEq, Repr

/-- The fixed non-Python short-circuit response (lines 40–46). -/
def nonPythonResponse : ReviewResponse :=
  { summary := "Non-Python file — analysis is only enabled for .py in this MVP."
    issues := []
    scores := ⟨0, 0, 0, 0⟩
    output := "(not run — non-Python file)"
    suggestions := ["Paste a .py file to get full analysis."] }

/-- The input validation and dispatch of the `/review` handler:
`code = (data.get("code") or "").strip()`,
`filename = (data.get("filename") or "snippet.py").strip()`, empty code
→ HTTP 400, filename whose lowercase form does not end in `".py"` →
fixed short-circuit response, otherwise the full analysis pipeline on
this code and filename. -/
def review_dispatch (codeField filenameField : Option String) : ReviewAction :=
  let code := pyStrip (pyOr codeField "")
  let filename := pyStrip (pyOr filenameField "snippet.py")
  if code = "" then .badRequest "No code provided."
  else if pyEndsWith (pyLower filename) ".py" = false then .shortCircuit nonPythonResponse
  else .analyze code filename

/-- C7: a non-empty-code request whose filename (after strip and
lowercasing) does not end in `".py"` is dispatched to the fixed
short-circuit response — explanatory summary, no issues, all four
scores 0, the literal output marker, and exactly one suggestion —
before any analyzer tool is consulted (`review_dispatch` is a pure
function of the two request fields alone, so two calls with the same
fields return identical responses). -/
theorem C7_non_python_short_circuit (codeField filenameField : Option String)
    (hcode : pyStrip (pyOr codeField "") ≠ "")
    (hext : pyEndsWith (pyLower (pyStrip (pyOr filenameField "snippet.py"))) ".py"
      = false) :
    review_dispatch codeField filenameField = .shortCircuit nonPythonResponse
    ∧ nonPythonResponse.summary =
        "Non-Python file — analysis is only enabled for .py in this MVP."
    ∧ nonPythonResponse.issues = []
    ∧ nonPythonResponse.scores = ⟨0, 0, 0, 0⟩
    ∧ nonPythonResponse.output = "(not run — non-Python file)"
    ∧ nonPythonResponse.suggestions = ["Paste a .py file to get full analysis."] := by
  refine ⟨?_, rfl, rfl, rfl, rfl, rfl⟩
  simp only [review_dispatch, if_neg hcode, hext, if_true]

/-- Witness for C7 at the concrete request
`{"filename": "notes.txt", "code": "print(1)"}`. -/
theorem C7_witness :
    review_dispatch (some "print(1)") (some "notes.txt")
      = .shortCircuit nonPythonResponse :=
  (C7_non_python_short_circuit (some "print(1)") (some "notes.txt")
    (by decide) (by decide)).1

/-- C10: with the filename field absent or empty (and non-empty code),
the handler substitutes `"snippet.py"`, which passes the extension
check, so the request is dispatched to the full analysis pipeline —
identically to an explicit `"snippet.py"`. -/
theorem C10_default_filename (codeField : Option String)
    (hcode : pyStrip (pyOr codeField "") ≠ "") :
    review_dispatch codeField none
        = .analyze (pyStrip (pyOr codeField "")) "snippet.py"
    ∧ review_dispatch codeField (some "")
        = .analyze (pyStrip (pyOr codeField "")) "snippet.py"
    ∧ review_dispatch codeField (some "snippet.py")
        = review_dispatch codeField none := by
  have hnotfalse : ¬(pyEndsWith (pyLower (pyStrip "snippet.py")) ".py" = false) := by
    decide
  have key : ∀ fn : Option String, pyOr fn "snippet.py" = "snippet.py" →
      review_dispatch codeField fn
        = .analyze (pyStrip (pyOr codeField "")) "snippet.py" := by
    intro fn hfn
    simp only [review_dispatch, hfn]
    rw [if_neg hcode, if_neg hnotfalse,
      (by decide : pyStrip "snippet.py" = "snippet.py")]
  have h1 := key none rfl
  have h2 := key (some "") (by decide)
  have h3 := key (some "snippet.py") (by decide)
  exact ⟨h1, h2, h3.trans h1.symm⟩

/-- Witness for C10 at the concrete code `"print(1)"`. -/
theorem C10_witness :
    review_dispatch (some "print(1)") none = .analyze "print(1)" "snippet.py" := by
  have h := (C10_default_filename (some "print(1)") (by decide)).1
  simpa using h

/-! ## Summary formatter (lines 290–315)

Python float formatting (`f"{x:.0f}"`, `f"{x:.1f}"`) is modelled on
the rational number model: round half to even at the requested number
of decimals and print the digits (a negative value prints a minus sign
against its rounded magnitude, which matches the symmetric tie rule). -/

/-- `f"{x:.0f}"` on the rational model. -/
def fmt0 (q : ℚ) : String :=
  if q < 0 then "-" ++ toString (rhe (-q)).toNat else toString (rhe q).toNat

/-- Digits of `f"{x:.1f}"` for non-negative `x`. -/
def fmt1core (q : ℚ) : String :=
  let t := (rhe (q * 10)).toNat
  toString (t / 10) ++ "." ++ toString (t % 10)

/-- `f"{x:.1f}"` on the rational model. -/
def fmt1 (q : ℚ) : String :=
  if q < 0 then "-" ++ fmt1core (-q) else fmt1core q

/-- `pretty_summary(metrics, lint_count, sec_count)` from `app.py`. -/
def pretty_summary (metrics : Metrics) (lint_count sec_count : ℕ) : String :=
  let mi := metrics.mi
  let avg_cc := metrics.avg_cc
  let max_cc := metrics.max_cc
  let mi_txt := match mi with | none => "n/a" | some v => fmt0 v
  let avg_txt := match avg_cc with | none => "n/a" | some v => fmt1 v
  let max_txt := match max_cc with | none => "n/a" | some v => fmt1 v
  let cx_label := match avg_cc with
    | some v =>
      if v = 0 then "trivial"
      else if v ≤ 3 then "low"
      else if v ≤ 6 then "moderate"
      else if v ≤ 10 then "high"
      else "very high"
    | none => "n/a"
  "Maintainability Index: " ++ mi_txt ++ " | " ++
    "Complexity: avg " ++ avg_txt ++ " (" ++ cx_label ++ "), max " ++ max_txt ++ " | " ++
    "Ruff: " ++ toString lint_count ++ " issues | " ++
    "Bandit: " ++ toString sec_count ++ " findings"

/-- The five-bucket qualitative label exactly as the specification
words it: `trivial` at exactly 0, `low` up to 3, `moderate` up to 6,
`high` up to 10, `very high` above. -/
def specBucketLabel (a : ℚ) : String :=
  if a = 0 then "trivial"
  else if a ≤ 3 then "low"
  else if a ≤ 6 then "moderate"
  else if a ≤ 10 then "high"
  else "very high"

/-- The one-line digest as the specification words it: maintainability
index as an integer (or `n/a`), average complexity to one decimal with
the bucket label (or `n/a`), maximum complexity to one decimal (or
`n/a`), the lint finding count, the security finding count, in this
exact order and punctuation. -/
def summary_spec (metrics : Metrics) (lintCount secCount : ℕ) : String :=
  "Maintainability Index: " ++
    (match metrics.mi with | none => "n/a" | some v => fmt0 v) ++
  " | Complexity: avg " ++
    (match metrics.avg_cc with | none => "n/a" | some v => fmt1 v) ++
  " (" ++
    (match metrics.avg_cc with | none => "n/a" | some v => specBucketLabel v) ++
  "), max " ++
    (match metrics.max_cc with | none => "n/a" | some v => fmt1 v) ++
  " | Ruff: " ++ toString lintCount ++ " issues | Bandit: " ++
    toString secCount ++ " findings"

/-- C6: the summary renderer produces exactly the line the
specification describes — same field order, punctuation, `n/a`
fallbacks, number formats and bucket labels — for every metrics value
and every pair of counts. -/
theorem C6_summary_line (metrics : Metrics) (lint_count sec_count : ℕ) :
    pretty_summary metrics lint_count sec_count
      = summary_spec metrics lint_count sec_count := by
  rcases metrics with ⟨mi, avg, mx⟩
  cases mi <;> cases avg <;> cases mx <;>
    simp only [pretty_summary, summary_spec, specBucketLabel] <;>
    simp [String.append_assoc]

/-! ## Suggestion builder (lines 253–288)

Each `if cond: sugg.append(text)` statement becomes one optional
singleton chunk; the chunks are concatenated in source order and the
fallback replaces an empty result. -/

def suggSyntax : String :=
  "Fix the syntax error first so static analysis can run cleanly."

def suggUnusedImports : String := "Remove unused imports (ruff F401)."

def suggSpacing : String := "Apply PEP 8 spacing around functions/classes."

def suggLongLines : String := "Wrap long lines (E501) to improve readability."

def suggBandit : String := "Review potential security issues flagged by Bandit."

def suggComplexity : String :=
  "Refactor large/nested functions to reduce cyclomatic complexity."

def suggMaintainability : String :=
  "Increase maintainability: simplify logic, extract helpers, add docstrings."

/-- `f"Address {len(hi)} HIGH-severity Bandit finding(s) immediately."` -/
def suggHigh (n : ℕ) : String :=
  "Address " ++ toString n ++ " HIGH-severity Bandit finding(s) immediately."

def suggMedLow : String := "Resolve Bandit MED/LOW findings as part of hardening."

def suggAddTests : String :=
  "Add unit tests (pytest or unittest) for critical paths and edge cases."

def suggFallback : String :=
  "Looks good. Consider docstrings and a few tests to lock behavior in."

/-- One conditional `sugg.append(t)` statement. -/
def optS (c : Bool) (t : String) : List String := if c then [t] else []

/-- `codes = {i.get("type") for i in issues if i.get("type")}`. -/
def issueCodes (issues : List Issue) : List String :=
  (issues.map (fun i => i.type)).filter (fun t => t ≠ "")

/-- `hi = [f for f in sec_findings if (f.get("issue_severity") or "").upper() == "HIGH"]`. -/
def highFindings (sec_findings : List SecFinding) : List SecFinding :=
  sec_findings.filter (fun f => pyUpper (pyOr f.issue_severity "") == "HIGH")

/-- The nine suggestion rules of `build_suggestions`, in source order,
abstracted over their (already evaluated) conditions; `nhi` is
`len(hi)` for the HIGH-severity message. -/
def ruleChunks (b1 b2 b3 b4 b5 b6 b7 bhi : Bool) (nhi : ℕ)
    (bany b9 : Bool) : List String :=
  optS b1 suggSyntax ++ optS b2 suggUnusedImports ++ optS b3 suggSpacing ++
  optS b4 suggLongLines ++ optS b5 suggBandit ++ optS b6 suggComplexity ++
  optS b7 suggMaintainability ++
  (if bhi then [suggHigh nhi] else optS bany suggMedLow) ++
  optS b9 suggAddTests

/-- `if not sugg: sugg.append(<fallback>)`. -/
def withFallback (l : List String) : List String :=
  if l.isEmpty then [suggFallback] else l

/-- `build_suggestions(metrics, issues, sec_findings, code)` from
`app.py`: rule conditions exactly as in lines 257–284 — syntax error
present, `"F401" in codes`, `"E302" in codes or "E305" in codes`,
`"E501" in codes`, any code starting with `"B"`, available
`avg_cc > 6`, available `mi < 60`, HIGH findings present (else any
finding present), and no test signal. -/
def build_suggestions (metrics : Metrics) (issues : List Issue)
    (sec_findings : List SecFinding) (code : List Char) : List String :=
  withFallback (ruleChunks
    (issues.any (fun i => i.type == "SYNTAX_ERROR"))
    ((issueCodes issues).contains "F401")
    ((issueCodes issues).contains "E302" || (issueCodes issues).contains "E305")
    ((issueCodes issues).contains "E501")
    ((issueCodes issues).any (fun c => pyStartsWith c "B"))
    (match metrics.avg_cc with | some a => decide (6 < a) | none => false)
    (match metrics.mi with | some v => decide (v < 60) | none => false)
    (!(highFindings sec_findings).isEmpty)
    (highFindings sec_findings).length
    (!sec_findings.isEmpty)
    (!hasTestSignal code))

/-- The ten rule conditions of `build_suggestions` as a list of
booleans ("no rule fires" is this list being all-false; the HIGH and
MED/LOW conditions of rule 8 are listed separately). -/
def ruleConditions (metrics : Metrics) (issues : List Issue)
    (sec_findings : List SecFinding) (code : List Char) : List Bool :=
  [issues.any (fun i => i.type == "SYNTAX_ERROR"),
   (issueCodes issues).contains "F401",
   (issueCodes issues).contains "E302" || (issueCodes issues).contains "E305",
   (issueCodes issues).contains "E501",
   (issueCodes issues).any (fun c => pyStartsWith c "B"),
   (match metrics.avg_cc with | some a => decide (6 < a) | none => false),
   (match metrics.mi with | some v => decide (v < 60) | none => false),
   !(highFindings sec_findings).isEmpty,
   !sec_findings.isEmpty,
   !hasTestSignal code]

/-- The superlist containing every rule's text once, in source order. -/
def masterSuggestions (nhi : ℕ) : List String :=
  [suggSyntax, suggUnusedImports, suggSpacing, suggLongLines, suggBandit,
   suggComplexity, suggMaintainability, suggHigh nhi, suggMedLow, suggAddTests]

theorem optS_eq_nil_iff (c : Bool) (t : String) : optS c t = [] ↔ c = false := by
  cases c <;> simp [optS]

theorem optS_sublist (c : Bool) (t : String) : List.Sublist (optS c t) [t] := by
  cases c <;> simp [optS]

theorem chunk8_sublist (bhi bany : Bool) (nhi : ℕ) :
    List.Sublist (if bhi then [suggHigh nhi] else optS bany suggMedLow)
      [suggHigh nhi, suggMedLow] := by
  cases bhi
  · cases bany
    · simp [optS]
    · exact (List.Sublist.refl [suggMedLow]).cons (suggHigh nhi)
  · exact (List.nil_sublist [suggMedLow]).cons₂ (suggHigh nhi)

theorem chunk8_eq_nil_iff (bhi bany : Bool) (nhi : ℕ) :
    (if bhi then [suggHigh nhi] else optS bany suggMedLow) = []
      ↔ bhi = false ∧ bany = false := by
  cases bhi <;> cases bany <;> simp [optS]

theorem take4_suggHigh (n : ℕ) :
    (suggHigh n).data.take 4 = ['A', 'd', 'd', 'r'] := by
  simp only [suggHigh, String.data_append]
  rfl

theorem suggHigh_ne (n : ℕ) {s : String}
    (hs : s.data.take 4 ≠ ['A', 'd', 'd', 'r']) : suggHigh n ≠ s :=
  fun h => hs (h ▸ take4_suggHigh n)

theorem masterSuggestions_nodup (nhi : ℕ) : (masterSuggestions nhi).Nodup := by
  have h1 : suggSyntax ≠ suggHigh nhi := (suggHigh_ne nhi (by decide)).symm
  have h2 : suggUnusedImports ≠ suggHigh nhi := (suggHigh_ne nhi (by decide)).symm
  have h3 : suggSpacing ≠ suggHigh nhi := (suggHigh_ne nhi (by decide)).symm
  have h4 : suggLongLines ≠ suggHigh nhi := (suggHigh_ne nhi (by decide)).symm
  have h5 : suggBandit ≠ suggHigh nhi := (suggHigh_ne nhi (by decide)).symm
  have h6 : suggComplexity ≠ suggHigh nhi := (suggHigh_ne nhi (by decide)).symm
  have h7 : suggMaintainability ≠ suggHigh nhi := (suggHigh_ne nhi (by decide)).symm
  have h8 : suggHigh nhi ≠ suggMedLow := suggHigh_ne nhi (by decide)
  have h9 : suggHigh nhi ≠ suggAddTests := suggHigh_ne nhi (by decide)
  simp +decide [masterSuggestions, List.nodup_cons, h1, h2, h3, h4, h5, h6, h7,
    h8, h9]

theorem fallback_not_mem_master (nhi : ℕ) :
    suggFallback ∉ masterSuggestions nhi := by
  have h : suggFallback ≠ suggHigh nhi := (suggHigh_ne nhi (by decide)).symm
  simp +decide [masterSuggestions, h]

theorem ruleChunks_sublist (b1 b2 b3 b4 b5 b6 b7 bhi : Bool) (nhi : ℕ)
    (bany b9 : Bool) :
    List.Sublist (ruleChunks b1 b2 b3 b4 b5 b6 b7 bhi nhi bany b9)
      (masterSuggestions nhi) := by
  unfold ruleChunks masterSuggestions
  exact ((((((((optS_sublist b1 _).append (optS_sublist b2 _)).append
    (optS_sublist b3 _)).append (optS_sublist b4 _)).append
    (optS_sublist b5 _)).append (optS_sublist b6 _)).append
    (optS_sublist b7 _)).append (chunk8_sublist bhi bany nhi)).append
    (optS_sublist b9 _)

theorem ruleChunks_eq_nil_iff (b1 b2 b3 b4 b5 b6 b7 bhi : Bool) (nhi : ℕ)
    (bany b9 : Bool) :
    ruleChunks b1 b2 b3 b4 b5 b6 b7 bhi nhi bany b9 = []
      ↔ b1 = false ∧ b2 = false ∧ b3 = false ∧ b4 = false ∧ b5 = false ∧
        b6 = false ∧ b7 = false ∧ bhi = false ∧ bany = false ∧ b9 = false := by
  simp only [ruleChunks, List.append_eq_nil, optS_eq_nil_iff, chunk8_eq_nil_iff]
  tauto

/-- The shape of `withFallback (ruleChunks …)` for arbitrary rule
conditions: non-empty, duplicate-free, and the fallback appears (as
the only element) exactly when every rule condition is false. -/
theorem withFallback_ruleChunks_spec (b1 b2 b3 b4 b5 b6 b7 bhi : Bool)
    (nhi : ℕ) (bany b9 : Bool) :
    withFallback (ruleChunks b1 b2 b3 b4 b5 b6 b7 bhi nhi bany b9) ≠ []
    ∧ (withFallback (ruleChunks b1 b2 b3 b4 b5 b6 b7 bhi nhi bany b9)).Nodup
    ∧ (suggFallback ∈ withFallback (ruleChunks b1 b2 b3 b4 b5 b6 b7 bhi nhi bany b9)
        ↔ withFallback (ruleChunks b1 b2 b3 b4 b5 b6 b7 bhi nhi bany b9)
            = [suggFallback])
    ∧ (withFallback (ruleChunks b1 b2 b3 b4 b5 b6 b7 bhi nhi bany b9)
          = [suggFallback]
        ↔ b1 = false ∧ b2 = false ∧ b3 = false ∧ b4 = false ∧ b5 = false ∧
          b6 = false ∧ b7 = false ∧ bhi = false ∧ bany = false ∧ b9 = false) := by
  by_cases hc : ruleChunks b1 b2 b3 b4 b5 b6 b7 bhi nhi bany b9 = []
  · rw [hc]
    have hout : withFallback [] = [suggFallback] := rfl
    rw [hout]
    refine ⟨by simp, by simp, by simp, ?_⟩
    simpa using (ruleChunks_eq_nil_iff b1 b2 b3 b4 b5 b6 b7 bhi nhi bany b9).mp hc
  · have hw : withFallback (ruleChunks b1 b2 b3 b4 b5 b6 b7 bhi nhi bany b9)
        = ruleChunks b1 b2 b3 b4 b5 b6 b7 bhi nhi bany b9 := by
      simp only [withFallback]
      rw [if_neg (by simpa [List.isEmpty_iff] using hc)]
    rw [hw]
    have hsub := ruleChunks_sublist b1 b2 b3 b4 b5 b6 b7 bhi nhi bany b9
    have hmem : suggFallback ∉ ruleChunks b1 b2 b3 b4 b5 b6 b7 bhi nhi bany b9 :=
      fun hm => fallback_not_mem_master nhi (hsub.subset hm)
    refine ⟨hc, (masterSuggestions_nodup nhi).sublist hsub, ?_, ?_⟩
    · constructor
      · intro hm
        exact absurd hm hmem
      · intro he
        rw [he]
        simp
    · constructor
      · intro he
        exact absurd (by rw [he]; simp) hmem
      · intro hall
        exact absurd ((ruleChunks_eq_nil_iff b1 b2 b3 b4 b5 b6 b7 bhi nhi
          bany b9).mpr hall) hc

/-- C8: for every input, `build_suggestions` returns a non-empty list
with no duplicate suggestion (each rule contributes at most one, in
source order), and the "looks good" fallback appears — necessarily as
the only element — exactly when none of the rule conditions holds. -/
theorem C8_suggestions (metrics : Metrics) (issues : List Issue)
    (sec_findings : List SecFinding) (code : List Char) :
    build_suggestions metrics issues sec_findings code ≠ []
    ∧ (build_suggestions metrics issues sec_findings code).Nodup
    ∧ (suggFallback ∈ build_suggestions metrics issues sec_findings code
        ↔ build_suggestions metrics issues sec_findings code = [suggFallback])
    ∧ (build_suggestions metrics issues sec_findings code = [suggFallback]
        ↔ ∀ b ∈ ruleConditions metrics issues sec_findings code, b = false) := by
  have h := withFallback_ruleChunks_spec
    (issues.any (fun i => i.type == "SYNTAX_ERROR"))
    ((issueCodes issues).contains "F401")
    ((issueCodes issues).contains "E302" || (issueCodes issues).contains "E305")
    ((issueCodes issues).contains "E501")
    ((issueCodes issues).any (fun c => pyStartsWith c "B"))
    (match metrics.avg_cc with | some a => decide (6 < a) | none => false)
    (match metrics.mi with | some v => decide (v < 60) | none => false)
    (!(highFindings sec_findings).isEmpty)
    (highFindings sec_findings).length
    (!sec_findings.isEmpty)
    (!hasTestSignal code)
  refine ⟨h.1, h.2.1, h.2.2.1, ?_⟩
  rw [show (build_suggestions metrics issues sec_findings code
      = [suggFallback]) ↔ _ from h.2.2.2]
  simp [ruleConditions]

end AIReviewer
